import Mathlib

/-!
Verification of the session and connectivity controller of the
`webserver-template` frontend (`src/frontend/src/context/user.tsx`,
`src/frontend/src/api/error.ts` alias `models/FullUser.ts` part two, and
`handleError` in `src/frontend/src/api/api.ts`).

The TypeScript code is shallowly embedded: the `UserProvider` React
component becomes an explicit state machine (`UserProviderState` plus a
`step` function over events), side effects (network requests, `WS.connect`
invocations, transient error toasts) are recorded in an `Effects` record,
and the module-level `USER_PROVIDER` singleton together with
`inspectError` becomes a `GlobalState` transformer.  Execution is
single-threaded and event-driven (spec section 5), so each callback of the
source runs atomically and is modelled as one step.
-/

namespace WebserverTemplate

/-- The full representation of the user (`FullUser` in the generated API
model): an opaque `uuid` and a `displayName`. -/
structure FullUser where
  uuid : String
  displayName : String
  deriving DecidableEq

/- Numeric status codes of `ApiError` (the `StatusCode` enum of
`api/error.ts`). -/
namespace StatusCode

/-- `ArbitraryJSError = -2`: an unexpected exception on the client. -/
def ArbitraryJSError : Int := -2

/-- `JsonDecodeError = -1`: the response could not be decoded. -/
def JsonDecodeError : Int := -1

/-- `Unauthenticated = 1000`: the server reports a missing session. -/
def Unauthenticated : Int := 1000

end StatusCode

/-- `ApiError` of `api/error.ts`: a numeric status code and a
human-readable message. -/
structure ApiError where
  status_code : Int
  message : String
  deriving DecidableEq

/-- The `Result` tagged union of `utils/result.ts`, restricted to the two
variants (`Ok` / `Err`) that the controller consumes via `match`. -/
inductive Result (T E : Type) where
  | Ok (value : T)
  | Err (error : E)
  deriving DecidableEq

/-- The `user` field of the `UserProvider` component state:
`FullUser | "unauthenticated" | "loading"`. -/
inductive Session where
  | loading
  | unauthenticated
  | authenticated (user : FullUser)
  deriving DecidableEq

/-- The mutable state of one `UserProvider` instance: its React state
(`this.state.user`) and the `fetching` guard flag. -/
structure UserProviderState where
  user : Session
  fetching : Bool
  deriving DecidableEq

/-- State of a freshly constructed provider:
`state = { user: "loading" }`, `fetching = false`. -/
def initState : UserProviderState := { user := Session.loading, fetching := false }

/-- Externally visible side effects of one event: how many `getMe` network
requests were issued, how many times `WS.connect` was invoked, and which
messages were shown by `toast.error` in `fetchUser`'s error branch. -/
structure Effects where
  requests : Nat
  wsConnects : Nat
  toastErrors : List String
  deriving DecidableEq

/-- No side effects. -/
def noEffects : Effects := { requests := 0, wsConnects := 0, toastErrors := [] }

/-- Accumulation of effects along a trace. -/
def Effects.append (a b : Effects) : Effects :=
  { requests := a.requests + b.requests
    wsConnects := a.wsConnects + b.wsConnects
    toastErrors := a.toastErrors ++ b.toastErrors }

/-- Events the provider reacts to:
a call to `fetchUser()` (which is also `reset` in the exposed context and
the login view's `onLogin` callback), the resolution of the pending
`Api.users.getMe()` promise, and `inspectError` being invoked with the
`Unauthenticated` status code while this provider is registered. -/
inductive Ev where
  | fetchUser
  | resolve (r : Result FullUser ApiError)
  | interceptSignal
  deriving DecidableEq

/-- Body of `fetchUser` up to its first suspension point: if the guard is
set the call returns at once; otherwise the state is set to `"loading"`,
the guard is set, and one `getMe` request is issued. -/
def fetchUserStep (s : UserProviderState) : UserProviderState × Effects :=
  if s.fetching then (s, noEffects)
  else ({ user := Session.loading, fetching := true },
        { requests := 1, wsConnects := 0, toastErrors := [] })

/-- The `.then` callback of `fetchUser`: on `Ok user` it calls
`WS.connect` and stores the user; on `Err` with the `Unauthenticated` code
it stores `"unauthenticated"`; on any other `Err` it shows
`toast.error(error.message)` and leaves the state untouched.  In every
case the callback finally clears the `fetching` guard. -/
def resolveStep (s : UserProviderState) :
    Result FullUser ApiError → UserProviderState × Effects
  | Result.Ok u =>
      ({ user := Session.authenticated u, fetching := false },
       { requests := 0, wsConnects := 1, toastErrors := [] })
  | Result.Err e =>
      if e.status_code = StatusCode.Unauthenticated then
        ({ user := Session.unauthenticated, fetching := false }, noEffects)
      else
        ({ user := s.user, fetching := false },
         { requests := 0, wsConnects := 0, toastErrors := [e.message] })

/-- The `Unauthenticated` branch of `inspectError` acting on the
registered provider: `setState({ user: "unauthenticated" })`. -/
def interceptStep (s : UserProviderState) : UserProviderState × Effects :=
  ({ user := Session.unauthenticated, fetching := s.fetching }, noEffects)

/-- One atomic event of the provider. -/
def step (s : UserProviderState) : Ev → UserProviderState × Effects
  | Ev.fetchUser => fetchUserStep s
  | Ev.resolve r => resolveStep s r
  | Ev.interceptSignal => interceptStep s

/-- An event is enabled: a `resolve` event can only be delivered while the
request it answers is in flight, i.e. while the guard is set (each issued
`getMe` promise resolves exactly once, and requests are only issued by
`fetchUser` when the guard is clear). -/
def enabled (s : UserProviderState) : Ev → Bool
  | Ev.resolve _ => s.fetching
  | _ => true

/-- States reachable from a freshly constructed provider by enabled
events. -/
inductive Reach : UserProviderState → Prop where
  | init : Reach initState
  | step (s : UserProviderState) (e : Ev) : Reach s → enabled s e = true →
      Reach (step s e).1

/-- Run a list of events, skipping events that are not enabled, and
accumulate the side effects. -/
def run : UserProviderState → List Ev → UserProviderState × Effects
  | s, [] => (s, noEffects)
  | s, e :: es =>
    if enabled s e then
      let p := step s e
      let q := run p.1 es
      (q.1, Effects.append p.2 q.2)
    else run s es

/-- What `render()` produces for each session value: a plain loading
placeholder, the `Login` view, or the `USER_CONTEXT.Provider` wrapping the
children with `{ user, reset }`. -/
inductive View where
  | loadingView
  | loginView
  | appView (user : FullUser)
  deriving DecidableEq

/-- The `render()` method of `UserProvider`. -/
def render : Session → View
  | Session.loading => View.loadingView
  | Session.unauthenticated => View.loginView
  | Session.authenticated u => View.appView u

/-- The transition table of spec section 4.1, read as the set of
(state, event, next state) triples it lists:
`Loading → Authenticated(user)` on fetch success,
`Loading → Unauthenticated` on a not-authenticated fetch result,
`Authenticated → Unauthenticated` on the interceptor signal,
`Unauthenticated → Loading` on `reset()`, and
`Loading → Loading` when overlapping fetch calls collapse. -/
def specTableB : Session → Ev → Session → Bool
  | Session.loading, Ev.resolve (Result.Ok u), Session.authenticated v => u == v
  | Session.loading, Ev.resolve (Result.Err e), Session.unauthenticated =>
      e.status_code == StatusCode.Unauthenticated
  | Session.authenticated _, Ev.interceptSignal, Session.unauthenticated => true
  | Session.unauthenticated, Ev.fetchUser, Session.loading => true
  | Session.loading, Ev.fetchUser, Session.loading => true
  | _, _, _ => false

/-- The transition table actually realized by the code: the spec table
plus the additional reachable transitions — `Authenticated → Loading` on a
`fetchUser`/`reset` call, the interceptor signal driving `Loading` and
`Unauthenticated` to `Unauthenticated` as well, a no-op `fetchUser` call
from `Unauthenticated` while a fetch is still in flight, a fetch error
with any other status code leaving the session unchanged, and a fetch that
resolves after an interceptor downgrade applying its outcome from
`Unauthenticated`. -/
def extTableB (s : Session) (e : Ev) (s' : Session) : Bool :=
  specTableB s e s' ||
  match s, e, s' with
  | Session.authenticated _, Ev.fetchUser, Session.loading => true
  | Session.unauthenticated, Ev.fetchUser, Session.unauthenticated => true
  | Session.loading, Ev.interceptSignal, Session.unauthenticated => true
  | Session.unauthenticated, Ev.interceptSignal, Session.unauthenticated => true
  | Session.loading, Ev.resolve (Result.Err e), Session.loading =>
      e.status_code != StatusCode.Unauthenticated
  | Session.unauthenticated, Ev.resolve (Result.Ok u), Session.authenticated v => u == v
  | Session.unauthenticated, Ev.resolve (Result.Err _), Session.unauthenticated => true
  | _, _, _ => false

/-- The module-level surroundings of the provider: the `USER_PROVIDER`
singleton slot (holding the registered provider's state, `none` when the
variable is `null`), the number of `CONSOLE.warn` calls, and the number of
`getMe` network requests issued. -/
structure GlobalState where
  provider : Option UserProviderState
  warnLogs : Nat
  requests : Nat
  deriving DecidableEq

/-- The exported `inspectError` function: on the `Unauthenticated` status
code it sets the registered provider's state to `"unauthenticated"`, or
logs a warning when no provider is registered; every other status code is
a no-op.  It is a total function, so it never throws. -/
def inspectError (g : GlobalState) (e : ApiError) : GlobalState :=
  if e.status_code = StatusCode.Unauthenticated then
    match g.provider with
    | some p =>
        { g with provider := some { p with user := Session.unauthenticated } }
    | none => { g with warnLogs := g.warnLogs + 1 }
  else g

/-- The singleton-registration part of `componentDidMount`, acting on the
`USER_PROVIDER` slot (provider instances are identified by a number): an
empty slot is claimed; an occupied slot is left unchanged and a
`CONSOLE.error` message is logged instead. -/
def componentDidMountRegister (slot : Option Nat) (self : Nat) :
    Option Nat × List String :=
  match slot with
  | none => (some self, [])
  | some occupant =>
      if occupant = self then (some occupant, ["UserProvider did mount twice"])
      else (some occupant, ["Two instances of UserProvider are used"])

/-- `componentWillUnmount`: the slot is cleared exactly when this instance
occupies it; otherwise it is left unchanged and an error is logged. -/
def componentWillUnmount (slot : Option Nat) (self : Nat) :
    Option Nat × List String :=
  if slot = some self then (none, [])
  else
    match slot with
    | none => (none, ["UserProvider instance did unmount twice"])
    | some occupant => (some occupant, ["Two instances of UserProvider are used"])

/-- The possible outcomes of the promise wrapped by `handleError`,
distinguished the way its `try`/`catch` distinguishes them: fulfillment,
a `ResponseError` (whose body either parses as a JSON error object or is
invalid JSON), a `RequiredError` raised by the generated client when the
response does not match the expected shape, and any other thrown value. -/
inductive PromiseOutcome (T : Type) where
  | fulfilled (value : T)
  | responseError (body : Option ApiError)
  | requiredError
  | otherException

/-- `parseError` of `api/error.ts`: returns the response body parsed as
JSON, or a synthesized `JsonDecodeError` when the body is invalid JSON. -/
def parseError : Option ApiError → ApiError
  | some e => e
  | none =>
      { status_code := StatusCode.JsonDecodeError
        message := "The server's response was invalid json" }

/-- `handleError` of `api/api.ts`: wraps every outcome of the promise into
a `Result`, synthesizing `JsonDecodeError` for a `RequiredError`,
`ArbitraryJSError` for any other exception, and delegating a
`ResponseError` body to `parseError`. -/
def handleError {T : Type} : PromiseOutcome T → Result T ApiError
  | PromiseOutcome.fulfilled v => Result.Ok v
  | PromiseOutcome.responseError body => Result.Err (parseError body)
  | PromiseOutcome.requiredError =>
      Result.Err
        { status_code := StatusCode.JsonDecodeError
          message := "The server's response didn't match the spec" }
  | PromiseOutcome.otherException =>
      Result.Err
        { status_code := StatusCode.ArbitraryJSError
          message := "Unknown error occurred" }

/-- Connection states emitted by the websocket wrapper to its `"state"`
listeners. -/
inductive WsState where
  | connecting
  | connected
  | disconnected
  deriving DecidableEq

/-- State of the toast bookkeeping installed by `componentDidMount`:
the `runningToast` local variable (the id of the persistent
"Connecting websocket..." toast, `null` after it was dismissed), the ids
of the persistent toasts currently visible, a fresh-id counter, and the
number of transient success toasts shown. -/
structure WsToastState where
  runningToast : Option Nat
  visible : List Nat
  nextId : Nat
  successToasts : Nat
  deriving DecidableEq

/-- Toast state right after `componentDidMount` ran
`let runningToast = toast.warn(...errorToast)`. -/
def initWsToastState : WsToastState :=
  { runningToast := some 0, visible := [0], nextId := 1, successToasts := 0 }

/-- The `"state"` event listener registered by `componentDidMount`:
`"connected"` dismisses the persistent toast (when one is showing) and
shows a transient success toast; every other state creates a new
persistent toast only when none is currently showing. -/
def onWsStateChange (w : WsToastState) : WsState → WsToastState
  | WsState.connected =>
      match w.runningToast with
      | some i =>
          { w with runningToast := none, visible := w.visible.erase i
                   successToasts := w.successToasts + 1 }
      | none => { w with successToasts := w.successToasts + 1 }
  | _ =>
      match w.runningToast with
      | none =>
          { w with runningToast := some w.nextId
                   visible := w.nextId :: w.visible
                   nextId := w.nextId + 1 }
      | some _ => w

/-- Deliver a list of connection-state events to the listener. -/
def runWs (w : WsToastState) (evs : List WsState) : WsToastState :=
  evs.foldl onWsStateChange w

/-- At most one persistent toast: the visible persistent toasts are
exactly the content of the `runningToast` variable. -/
def persistentInv (w : WsToastState) : Prop :=
  w.visible = w.runningToast.toList

/-- Everything `componentDidMount` leaves behind: the provider state and
effects after the initial `fetchUser()` call, the singleton slot and error
log after registration, and the toast state after the persistent
"Connecting websocket..." toast was created and the listener installed. -/
structure MountedWorld where
  pstate : UserProviderState
  effects : Effects
  slot : Option Nat
  errorLogs : List String
  toasts : WsToastState
  deriving DecidableEq

/-- `componentDidMount` of a freshly constructed provider `self` run
against a given singleton slot: it calls `this.fetchUser()`, attempts to
register as the singleton, and unconditionally creates the persistent
"Connecting websocket..." toast. -/
def componentDidMount (slot : Option Nat) (self : Nat) : MountedWorld :=
  let p := fetchUserStep initState
  let r := componentDidMountRegister slot self
  { pstate := p.1, effects := p.2, slot := r.1, errorLogs := r.2
    toasts := initWsToastState }

/-- JavaScript `String.prototype.replace` with a plain-string pattern:
replace the first occurrence of `pat`, scanning left to right. -/
def replaceFirstAux (pat rep : List Char) : List Char → List Char
  | [] => if pat.isEmpty then rep else []
  | c :: cs =>
      if pat.isPrefixOf (c :: cs) then rep ++ (c :: cs).drop pat.length
      else c :: replaceFirstAux pat rep cs

/-- JavaScript `origin.replace(pat, rep)` on Lean strings. -/
def jsStringReplace (s pat rep : String) : String :=
  String.mk (replaceFirstAux pat.data rep.data s.data)

/-- The websocket URL computed in `fetchUser`'s success branch:
`window.location.origin.replace("http", "ws")` with the fixed path
`/api/v1/ws` appended. -/
def wsUrl (origin : String) : String :=
  jsStringReplace origin "http" "ws" ++ "/api/v1/ws"

/-- A provider whose session is `Authenticated` is never in the middle of
a fetch: the only way to become authenticated is the success branch of the
`.then` callback, which clears the guard in the same step. -/
theorem reach_authenticated_not_fetching :
    ∀ s, Reach s → ∀ u, s.user = Session.authenticated u → s.fetching = false := by
  intro s hR
  induction hR with
  | init => intro u h; simp [initState] at h
  | step s e hR hEn ih =>
    intro u h
    cases e with
    | fetchUser =>
      by_cases hf : s.fetching = true
      · simp [step, fetchUserStep, hf] at h
        have hfix := ih u h
        simp [hfix] at hf
      · simp [Bool.not_eq_true] at hf
        simp [step, fetchUserStep, hf] at h
    | resolve r =>
      cases r with
      | Ok v => simp [step, resolveStep]
      | Err e' =>
        by_cases hs : e'.status_code = StatusCode.Unauthenticated
        · simp [step, resolveStep, hs]
        · simp [step, resolveStep, hs]
    | interceptSignal => simp [step, interceptStep] at h

/-- The state reached right after `fetchUser` issued a request. -/
theorem reach_loading_fetching :
    Reach ({ user := Session.loading, fetching := true } : UserProviderState) :=
  Reach.step initState Ev.fetchUser Reach.init rfl

/-- A state with an authenticated user, reached by a successful fetch. -/
theorem reach_auth_alice :
    Reach ({ user := Session.authenticated { uuid := "u1", displayName := "Alice" },
             fetching := false } : UserProviderState) :=
  Reach.step { user := Session.loading, fetching := true }
    (Ev.resolve (Result.Ok { uuid := "u1", displayName := "Alice" }))
    reach_loading_fetching rfl

/-- C1: the claim as stated is false: from the reachable state
`Authenticated(Alice)` the enabled `fetchUser`/`reset` event produces the
transition `Authenticated → Loading`, which is not in the spec's
transition table. -/
theorem claim1_counterexample :
    Reach ({ user := Session.authenticated { uuid := "u1", displayName := "Alice" },
             fetching := false } : UserProviderState) ∧
    enabled { user := Session.authenticated { uuid := "u1", displayName := "Alice" },
              fetching := false } Ev.fetchUser = true ∧
    (step { user := Session.authenticated { uuid := "u1", displayName := "Alice" },
            fetching := false } Ev.fetchUser).1.user = Session.loading ∧
    specTableB (Session.authenticated { uuid := "u1", displayName := "Alice" })
      Ev.fetchUser Session.loading = false :=
  ⟨reach_auth_alice, rfl, rfl, rfl⟩

/-- C1 (amended): starting from the initial `Loading` state, every
transition produced by an enabled event lies in the spec's table extended
by: `Authenticated → Loading` on `fetchUser`/`reset`, the interceptor
signal driving any state to `Unauthenticated`, a no-op `fetchUser` from
`Unauthenticated` while a fetch is in flight, a fetch error with another
status code leaving the session unchanged, and a fetch resolving after an
interceptor downgrade applying its outcome from `Unauthenticated`; no
transition outside this extended list is reachable. -/
theorem claim1_transition_table :
    ∀ s e, Reach s → enabled s e = true →
      extTableB s.user e ((step s e).1.user) = true := by
  intro s e hR hEn
  cases e with
  | fetchUser =>
    by_cases hf : s.fetching = true
    · rcases hu : s.user with _ | _ | u
      · simp [step, fetchUserStep, hf, hu, extTableB, specTableB]
      · simp [step, fetchUserStep, hf, hu, extTableB, specTableB]
      · have hfix := reach_authenticated_not_fetching s hR u hu
        simp [hfix] at hf
    · simp [Bool.not_eq_true] at hf
      rcases hu : s.user with _ | _ | u <;>
        simp [step, fetchUserStep, hf, hu, extTableB, specTableB]
  | resolve r =>
    have hf : s.fetching = true := by simpa [enabled] using hEn
    cases r with
    | Ok v =>
      rcases hu : s.user with _ | _ | u
      · simp [step, resolveStep, hu, extTableB, specTableB]
      · simp [step, resolveStep, hu, extTableB, specTableB]
      · have hfix := reach_authenticated_not_fetching s hR u hu
        simp [hfix] at hf
    | Err e' =>
      by_cases hs : e'.status_code = StatusCode.Unauthenticated
      · rcases hu : s.user with _ | _ | u
        · simp [step, resolveStep, hs, hu, extTableB, specTableB]
        · simp [step, resolveStep, hs, hu, extTableB, specTableB]
        · have hfix := reach_authenticated_not_fetching s hR u hu
          simp [hfix] at hf
      · rcases hu : s.user with _ | _ | u
        · simp [step, resolveStep, hs, hu, extTableB, specTableB]
        · simp [step, resolveStep, hs, hu, extTableB, specTableB]
        · have hfix := reach_authenticated_not_fetching s hR u hu
          simp [hfix] at hf
  | interceptSignal =>
    rcases hu : s.user with _ | _ | u <;>
      simp [step, interceptStep, hu, extTableB, specTableB]

/-- C1 amended-claim witness: the initial overlapping-fetch self-loop. -/
theorem claim1_transition_table_witness :
    extTableB initState.user Ev.fetchUser ((step initState Ev.fetchUser).1.user) = true :=
  claim1_transition_table initState Ev.fetchUser Reach.init rfl

/-- C2: `fetchUser` is idempotent under overlap: with the guard set a call
is a no-op with no network request and no state change; with the guard
clear it sets the session to `Loading`, sets the guard, and issues exactly
one request, so two back-to-back calls issue exactly one request; and the
`.then` callback clears the guard for every possible request outcome. -/
theorem claim2_fetchUser_idempotent :
    (∀ s : UserProviderState, s.fetching = true →
       step s Ev.fetchUser = (s, noEffects)) ∧
    (∀ s : UserProviderState, s.fetching = false →
       step s Ev.fetchUser =
         ({ user := Session.loading, fetching := true },
          { requests := 1, wsConnects := 0, toastErrors := [] })) ∧
    (∀ s : UserProviderState, s.fetching = false →
       (run s [Ev.fetchUser, Ev.fetchUser]).2.requests = 1) ∧
    (∀ (s : UserProviderState) (r : Result FullUser ApiError),
       (step s (Ev.resolve r)).1.fetching = false) := by
  refine ⟨?_, ?_, ?_, ?_⟩
  · intro s hf
    simp [step, fetchUserStep, hf]
  · intro s hf
    simp [step, fetchUserStep, hf]
  · intro s hf
    simp [run, step, fetchUserStep, hf, enabled, noEffects, Effects.append]
  · intro s r
    cases r with
    | Ok u => simp [step, resolveStep]
    | Err e =>
      by_cases hs : e.status_code = StatusCode.Unauthenticated <;>
        simp [step, resolveStep, hs, noEffects]

/-- C2 witness: a call while a fetch is in flight is a no-op, and two
back-to-back calls from the initial state issue exactly one request. -/
theorem claim2_fetchUser_idempotent_witness :
    step { user := Session.loading, fetching := true } Ev.fetchUser =
      ({ user := Session.loading, fetching := true }, noEffects) ∧
    (run initState [Ev.fetchUser, Ev.fetchUser]).2.requests = 1 :=
  ⟨claim2_fetchUser_idempotent.1 { user := Session.loading, fetching := true } rfl,
   claim2_fetchUser_idempotent.2.2.1 initState rfl⟩

/-- C3: `inspectError` on the not-authenticated code sets the registered
provider to `Unauthenticated` regardless of its prior state, issuing no
fetch; with no provider registered it only logs a warning; every other
status code is a no-op; and `inspectError` is a total function, so it
never throws. -/
theorem claim3_inspectError :
    (∀ (g : GlobalState) (e : ApiError) (p : UserProviderState),
       e.status_code = StatusCode.Unauthenticated → g.provider = some p →
       inspectError g e =
         { g with provider := some { p with user := Session.unauthenticated } } ∧
       (inspectError g e).requests = g.requests ∧
       (inspectError g e).warnLogs = g.warnLogs) ∧
    (∀ (g : GlobalState) (e : ApiError),
       e.status_code = StatusCode.Unauthenticated → g.provider = none →
       inspectError g e = { g with warnLogs := g.warnLogs + 1 }) ∧
    (∀ (g : GlobalState) (e : ApiError),
       e.status_code ≠ StatusCode.Unauthenticated → inspectError g e = g) := by
  refine ⟨?_, ?_, ?_⟩
  · intro g e p hs hp
    refine ⟨?_, ?_, ?_⟩ <;> simp [inspectError, hs, hp]
  · intro g e hs hp
    simp [inspectError, hs, hp]
  · intro g e hs
    simp [inspectError, hs]

/-- C3 witness: a not-authenticated error downgrades a registered
provider that is still loading. -/
theorem claim3_inspectError_witness :
    inspectError { provider := some initState, warnLogs := 0, requests := 0 }
        { status_code := 1000, message := "x" } =
      { provider := some { user := Session.unauthenticated, fetching := false },
        warnLogs := 0, requests := 0 } :=
  (claim3_inspectError.1 { provider := some initState, warnLogs := 0, requests := 0 }
    { status_code := 1000, message := "x" } initState rfl rfl).1

/-- C4: a step whose resulting session is `Loading` or `Unauthenticated`
never invokes `WS.connect` (the resolution of a successful fetch connects
and stores the user atomically in the same callback), and in particular a
fetch resolving with status code 1000 yields `Unauthenticated` without
starting the monitor. -/
theorem claim4_monitor_gating :
    (∀ (s : UserProviderState) (e : Ev), Reach s → enabled s e = true →
       ((step s e).1.user = Session.loading ∨
        (step s e).1.user = Session.unauthenticated) →
       (step s e).2.wsConnects = 0) ∧
    (∀ (s : UserProviderState) (e' : ApiError), Reach s → s.fetching = true →
       e'.status_code = StatusCode.Unauthenticated →
       (step s (Ev.resolve (Result.Err e'))).1.user = Session.unauthenticated ∧
       (step s (Ev.resolve (Result.Err e'))).2.wsConnects = 0) := by
  refine ⟨?_, ?_⟩
  · intro s e hR hEn hpost
    cases e with
    | fetchUser =>
      by_cases hf : s.fetching = true <;>
        simp [step, fetchUserStep, hf, noEffects]
    | resolve r =>
      cases r with
      | Ok u => simp [step, resolveStep] at hpost
      | Err e' =>
        by_cases hs : e'.status_code = StatusCode.Unauthenticated <;>
          simp [step, resolveStep, hs, noEffects]
    | interceptSignal => simp [step, interceptStep, noEffects]
  · intro s e' hR hf hs
    refine ⟨?_, ?_⟩ <;> simp [step, resolveStep, hs, noEffects]

/-- C4 witness: the initial fetch issue leaves the session `Loading` with
no connect, and a 1000-coded resolution never connects. -/
theorem claim4_monitor_gating_witness :
    (step initState Ev.fetchUser).2.wsConnects = 0 ∧
    ((step { user := Session.loading, fetching := true }
        (Ev.resolve (Result.Err { status_code := 1000, message := "no session" }))).1.user =
       Session.unauthenticated ∧
     (step { user := Session.loading, fetching := true }
        (Ev.resolve (Result.Err { status_code := 1000, message := "no session" }))).2.wsConnects = 0) :=
  ⟨claim4_monitor_gating.1 initState Ev.fetchUser Reach.init rfl (Or.inl rfl),
   claim4_monitor_gating.2 { user := Session.loading, fetching := true }
     { status_code := 1000, message := "no session" } reach_loading_fetching rfl rfl⟩

/-- C5: the singleton slot is first-wins: mounting over an occupied slot
leaves it unchanged and only logs; unmounting clears the slot exactly when
the instance occupies it.  Both operations are total functions (no
throw). -/
theorem claim5_singleton :
    (∀ (slot : Option Nat) (self occupant : Nat), slot = some occupant →
       (componentDidMountRegister slot self).1 = slot ∧
       (componentDidMountRegister slot self).2 ≠ []) ∧
    (∀ self : Nat, (componentWillUnmount (some self) self).1 = none) ∧
    (∀ (slot : Option Nat) (self : Nat), slot ≠ some self →
       (componentWillUnmount slot self).1 = slot) := by
  refine ⟨?_, ?_, ?_⟩
  · intro slot self occupant h
    subst h
    by_cases he : occupant = self <;>
      simp [componentDidMountRegister, he]
  · intro self
    simp [componentWillUnmount]
  · intro slot self h
    cases slot with
    | none => simp [componentWillUnmount, h]
    | some occ => simp [componentWillUnmount, h]

/-- C5 witness: instance 1 mounting over instance 0 does not replace it,
and unmount only clears the slot for its occupant. -/
theorem claim5_singleton_witness :
    (componentDidMountRegister (some 0) 1).1 = some 0 ∧
    (componentDidMountRegister (some 0) 1).2 ≠ [] ∧
    (componentWillUnmount (some 0) 0).1 = none ∧
    (componentWillUnmount (some 0) 1).1 = some 0 :=
  ⟨(claim5_singleton.1 (some 0) 1 0 rfl).1,
   (claim5_singleton.1 (some 0) 1 0 rfl).2,
   claim5_singleton.2.1 0,
   claim5_singleton.2.2 (some 0) 1 (by decide)⟩

/-- C6: `handleError` is total over every outcome of the wrapped promise
and the client-synthesized codes form a closed negative set: fulfillment
gives `Ok`, a malformed error body or a shape mismatch gives `Err` with
status code `-1`, any other exception gives `Err` with `-2`, and a
server-reported error object is passed through untouched. -/
theorem claim6_handleError :
    (∀ (T : Type) (v : T), handleError (PromiseOutcome.fulfilled v) = Result.Ok v) ∧
    (∀ (T : Type) (e : ApiError),
       (handleError (PromiseOutcome.responseError (some e)) : Result T ApiError) =
         Result.Err e) ∧
    (∀ T : Type,
       (handleError (PromiseOutcome.responseError none) : Result T ApiError) =
         Result.Err { status_code := -1
                      message := "The server's response was invalid json" }) ∧
    (∀ T : Type,
       (handleError PromiseOutcome.requiredError : Result T ApiError) =
         Result.Err { status_code := -1
                      message := "The server's response didn't match the spec" }) ∧
    (∀ T : Type,
       (handleError PromiseOutcome.otherException : Result T ApiError) =
         Result.Err { status_code := -2, message := "Unknown error occurred" }) :=
  ⟨fun _ _ => rfl, fun _ _ => rfl, fun _ => rfl, fun _ => rfl, fun _ => rfl⟩

/-- C7: a fetch error with a status code other than 1000 shows the
error's message verbatim as a transient toast, leaves the session in its
prior `Loading` value, and leaves `fetchUser` enabled again (the UI stays
interactive); a 1000-coded error produces no toast and renders the login
view instead of raw error text. -/
theorem claim7_error_surfacing :
    (∀ (s : UserProviderState) (e' : ApiError), Reach s → s.fetching = true →
       s.user = Session.loading →
       e'.status_code ≠ StatusCode.Unauthenticated →
       (step s (Ev.resolve (Result.Err e'))).1.user = Session.loading ∧
       (step s (Ev.resolve (Result.Err e'))).2.toastErrors = [e'.message] ∧
       enabled (step s (Ev.resolve (Result.Err e'))).1 Ev.fetchUser = true) ∧
    (∀ (s : UserProviderState) (e' : ApiError), Reach s → s.fetching = true →
       e'.status_code = StatusCode.Unauthenticated →
       (step s (Ev.resolve (Result.Err e'))).1.user = Session.unauthenticated ∧
       (step s (Ev.resolve (Result.Err e'))).2.toastErrors = [] ∧
       render (step s (Ev.resolve (Result.Err e'))).1.user = View.loginView) := by
  refine ⟨?_, ?_⟩
  · intro s e' hR hf hu hs
    refine ⟨?_, ?_, ?_⟩ <;> simp [step, resolveStep, hs, hu, enabled]
  · intro s e' hR hf hs
    refine ⟨?_, ?_, ?_⟩ <;> simp [step, resolveStep, hs, noEffects, render]

/-- C7 witness: a 500-coded error is toasted verbatim and leaves the
session loading; a 1000-coded error renders the login view with no
toast. -/
theorem claim7_error_surfacing_witness :
    (step { user := Session.loading, fetching := true }
        (Ev.resolve (Result.Err { status_code := 500, message := "boom" }))).2.toastErrors =
      ["boom"] ∧
    render (step { user := Session.loading, fetching := true }
        (Ev.resolve (Result.Err { status_code := 1000, message := "no session" }))).1.user =
      View.loginView :=
  ⟨(claim7_error_surfacing.1 { user := Session.loading, fetching := true }
      { status_code := 500, message := "boom" } reach_loading_fetching rfl rfl
      (by decide)).2.1,
   (claim7_error_surfacing.2 { user := Session.loading, fetching := true }
      { status_code := 1000, message := "no session" } reach_loading_fetching rfl rfl).2.2⟩

/-- One listener step preserves the persistent-toast bookkeeping
invariant. -/
theorem persistentInv_step :
    ∀ (w : WsToastState) (st : WsState),
      persistentInv w → persistentInv (onWsStateChange w st) := by
  intro w st h
  cases st with
  | connected =>
    cases hr : w.runningToast with
    | none => simpa [persistentInv, onWsStateChange, hr] using h
    | some i =>
      have hv : w.visible = [i] := by simpa [persistentInv, hr] using h
      simp [persistentInv, onWsStateChange, hr, hv]
  | connecting =>
    cases hr : w.runningToast with
    | none =>
      have hv : w.visible = [] := by simpa [persistentInv, hr] using h
      simp [persistentInv, onWsStateChange, hr, hv]
    | some i => simpa [persistentInv, onWsStateChange, hr] using h
  | disconnected =>
    cases hr : w.runningToast with
    | none =>
      have hv : w.visible = [] := by simpa [persistentInv, hr] using h
      simp [persistentInv, onWsStateChange, hr, hv]
    | some i => simpa [persistentInv, onWsStateChange, hr] using h

/-- The invariant holds along every delivered event sequence. -/
theorem persistentInv_runWs :
    ∀ (evs : List WsState) (w : WsToastState),
      persistentInv w → persistentInv (runWs w evs) := by
  intro evs
  induction evs with
  | nil => intro w h; exact h
  | cons st evs ih =>
    intro w h
    exact ih (onWsStateChange w st) (persistentInv_step w st h)

/-- C8: over every sequence of connection-state events, at most one
persistent connecting/warning toast is visible; `connected` dismisses it
and shows a transient success toast; a non-`connected` event creates a new
persistent toast only when none is showing, so a second consecutive
`disconnected` changes nothing. -/
theorem claim8_toast_dedup :
    (∀ evs : List WsState, ((runWs initWsToastState evs).visible).length ≤ 1) ∧
    (∀ (w : WsToastState) (i : ℕ), persistentInv w → w.runningToast = some i →
       (onWsStateChange w WsState.connected).runningToast = none ∧
       (onWsStateChange w WsState.connected).visible = [] ∧
       (onWsStateChange w WsState.connected).successToasts = w.successToasts + 1) ∧
    (∀ w : WsToastState, w.runningToast = none →
       (onWsStateChange w WsState.disconnected).runningToast = some w.nextId ∧
       (onWsStateChange w WsState.disconnected).visible = w.nextId :: w.visible) ∧
    (∀ (w : WsToastState) (i : ℕ), w.runningToast = some i →
       onWsStateChange w WsState.disconnected = w) ∧
    (∀ w : WsToastState,
       onWsStateChange (onWsStateChange w WsState.disconnected) WsState.disconnected =
         onWsStateChange w WsState.disconnected) := by
  refine ⟨?_, ?_, ?_, ?_, ?_⟩
  · intro evs
    have h : (runWs initWsToastState evs).visible =
        ((runWs initWsToastState evs).runningToast).toList :=
      persistentInv_runWs evs initWsToastState rfl
    rw [h]
    cases (runWs initWsToastState evs).runningToast <;> simp [Option.toList]
  · intro w i hInv hr
    have hv : w.visible = [i] := by simpa [persistentInv, hr] using hInv
    refine ⟨?_, ?_, ?_⟩ <;> simp [onWsStateChange, hr, hv]
  · intro w hr
    refine ⟨?_, ?_⟩ <;> simp [onWsStateChange, hr]
  · intro w i hr
    simp [onWsStateChange, hr]
  · intro w
    cases hr : w.runningToast with
    | none => simp [onWsStateChange, hr]
    | some i => simp [onWsStateChange, hr]

/-- C8 witness: after mount, one `disconnected` event keeps a single
persistent toast, `connected` dismisses it, and a duplicate
`disconnected` is a no-op. -/
theorem claim8_toast_dedup_witness :
    ((runWs initWsToastState [WsState.disconnected]).visible).length ≤ 1 ∧
    (onWsStateChange initWsToastState WsState.connected).runningToast = none ∧
    onWsStateChange initWsToastState WsState.disconnected = initWsToastState :=
  ⟨claim8_toast_dedup.1 [WsState.disconnected],
   (claim8_toast_dedup.2.1 initWsToastState 0 rfl rfl).1,
   claim8_toast_dedup.2.2.2.1 initWsToastState 0 rfl⟩

/-- Replacing the first occurrence of `"http"` at the head of a string. -/
theorem replaceFirstAux_http (l : List Char) :
    replaceFirstAux ['h', 't', 't', 'p'] ['w', 's']
      ('h' :: 't' :: 't' :: 'p' :: l) = 'w' :: 's' :: l := by
  simp [replaceFirstAux, List.isPrefixOf]

/-- C9: the websocket URL is derived from the page origin by scheme
substitution: an `http://` origin yields `ws://`, an `https://` origin
yields `wss://`, the remainder of the origin is preserved unchanged, and
the fixed path `/api/v1/ws` is appended. -/
theorem claim9_ws_scheme :
    ∀ rest : String,
      wsUrl ("http://" ++ rest) = "ws://" ++ rest ++ "/api/v1/ws" ∧
      wsUrl ("https://" ++ rest) = "wss://" ++ rest ++ "/api/v1/ws" := by
  intro rest
  obtain ⟨l⟩ := rest
  constructor
  · apply String.ext
    show replaceFirstAux ['h', 't', 't', 'p'] ['w', 's']
        ('h' :: 't' :: 't' :: 'p' :: ':' :: '/' :: '/' :: l) ++ "/api/v1/ws".data =
      ('w' :: 's' :: ':' :: '/' :: '/' :: l) ++ "/api/v1/ws".data
    rw [replaceFirstAux_http]
  · apply String.ext
    show replaceFirstAux ['h', 't', 't', 'p'] ['w', 's']
        ('h' :: 't' :: 't' :: 'p' :: 's' :: ':' :: '/' :: '/' :: l) ++ "/api/v1/ws".data =
      ('w' :: 's' :: 's' :: ':' :: '/' :: '/' :: l) ++ "/api/v1/ws".data
    rw [replaceFirstAux_http]

/-- C10: `componentDidMount` creates the persistent
"Connecting websocket..." toast unconditionally: after mount the toast is
visible while the session is still `Loading` with the fetch in flight and
`WS.connect` was never invoked; and even when that fetch then resolves
not-authenticated, the session becomes `Unauthenticated` and `WS.connect`
is still never invoked. -/
theorem claim10_mount_toast :
    ∀ (slot : Option ℕ) (self : ℕ) (m : String),
      (componentDidMount slot self).toasts.runningToast = some 0 ∧
      (componentDidMount slot self).toasts.visible = [0] ∧
      (componentDidMount slot self).pstate.user = Session.loading ∧
      (componentDidMount slot self).pstate.fetching = true ∧
      (componentDidMount slot self).effects.requests = 1 ∧
      (componentDidMount slot self).effects.wsConnects = 0 ∧
      (resolveStep (componentDidMount slot self).pstate
          (Result.Err { status_code := 1000, message := m })).1.user =
        Session.unauthenticated ∧
      (resolveStep (componentDidMount slot self).pstate
          (Result.Err { status_code := 1000, message := m })).2.wsConnects = 0 := by
  intro slot self m
  refine ⟨rfl, rfl, rfl, rfl, rfl, rfl, ?_, ?_⟩ <;>
    simp [componentDidMount, fetchUserStep, initState, resolveStep,
      StatusCode.Unauthenticated, noEffects]

end WebserverTemplate
